import Mathlib

/-!
Shallow embedding of `src/milvus/milvus.go` (package `milvus` of
deckarep/gptbot): a thin adapter mapping a "knowledge section" document model
onto a Milvus vector-database client.

The external Milvus SDK client (and the OS file system and JSON decoder) are
modelled as an oracle (`World`): a record of response functions, one per
external call site.  Each embedded operation returns the final `Milvus`
value, the trace of external calls it issued (in order), and its result, so
that call order, payloads, error propagation and frame conditions can all be
stated.  Straight-line Go code becomes straight-line Lean; every `if err !=
nil` branch becomes a `match` on the oracle's answer.
-/

/-- Errors of the underlying client are opaque values that this code only
passes around; a `String` models them. -/
abbrev Err := String

/-- Model of Go `float32`.  IEEE-754 narrowing is kept symbolic: a `Float32`
records the `float64` it was narrowed from, and widening (`float64(x)` in Go)
returns that record.  No claim about this code concerns rounding behaviour,
only where the conversions are applied. -/
structure Float32 where
  val : Float

/-- Go `float32(x)` applied to a `float64` (the element operation of
`xslices.Float64ToNumber[float32]`). -/
def Float.toF32 (x : Float) : Float32 := ⟨x⟩

/-- Go `float64(x)` applied to a `float32`. -/
def Float32.toF64 (x : Float32) : Float := x.val

/-- `xslices.Float64ToNumber[float32]`: element-wise conversion of a
`[]float64` to a `[]float32`. -/
def float64ToNumber (s : List Float) : List Float32 :=
  s.map Float.toF32

/-- `gptbot.Section`: the document model (fields used by this package). -/
structure Section where
  Title : String
  Heading : String
  Content : String
  Embedding : List Float

/-- `gptbot.Similarity`: a section together with its id and search score.
The embedded `Section` field is named `sect` (`Section` is taken by the
type). -/
structure Similarity where
  sect : Section
  ID : Int
  Score : Float

/-- Column name constants (`idCol, titleCol, headingCol, contentCol,
embeddingCol` in the source). -/
def idCol : String := "id"

def titleCol : String := "title"

def headingCol : String := "heading"

def contentCol : String := "content"

def embeddingCol : String := "embedding"

/-- `entity.Column` values as built and consumed by this package:
`ColumnInt64`, `ColumnVarChar`, `ColumnFloatVector`. -/
inductive Column where
  | int64 (name : String) (values : List Int)
  | varchar (name : String) (values : List String)
  | floatVector (name : String) (dim : Int) (values : List (List Float32))

/-- `field.Name()` on a column. -/
def Column.name : Column → String
  | .int64 n _ => n
  | .varchar n _ => n
  | .floatVector n _ _ => n

/-- `entity.MetricType`; only `L2` is used. -/
inductive MetricType where
  | L2
deriving DecidableEq

/-- `entity.ConsistencyLevel`; only `ClBounded` is used. -/
inductive ConsistencyLevel where
  | clBounded
deriving DecidableEq

/-- `entity.IndexIvfFlat`: the descriptor produced by
`entity.NewIndexIvfFlat`. -/
structure IndexIvfFlat where
  metricType : MetricType
  nlist : Int
deriving DecidableEq

/-- `entity.NewIndexIvfFlat(metricType, nlist)`: the SDK validates
`nlist` against the range [1, 65536] and errors outside it. -/
def newIndexIvfFlat (metricType : MetricType) (nlist : Int) :
    Except Err IndexIvfFlat :=
  if nlist < 1 || nlist > 65536 then
    .error "nlist has to be in range [1, 65536]"
  else
    .ok ⟨metricType, nlist⟩

/-- `entity.IndexFlatSearchParam`, produced by
`entity.NewIndexFlatSearchParam`; it carries no data this code inspects. -/
structure IndexFlatSearchParam where
deriving DecidableEq

/-- `entity.NewIndexFlatSearchParam()`: never fails. -/
def newIndexFlatSearchParam : Except Err IndexFlatSearchParam :=
  .ok ⟨⟩

/-- Field data types used by the collection schema. -/
inductive FieldType where
  | int64
  | varchar
  | floatVector
deriving DecidableEq

/-- `entity.TypeParamMaxLength`. -/
def typeParamMaxLength : String := "max_length"

/-- `entity.TypeParamDim`. -/
def typeParamDim : String := "dim"

/-- One `*entity.Field` of a schema. -/
structure SchemaField where
  Name : String
  DataType : FieldType
  PrimaryKey : Bool
  TypeParams : List (String × String)
deriving DecidableEq

/-- `*entity.Schema`. -/
structure Schema where
  CollectionName : String
  AutoID : Bool
  Fields : List SchemaField
deriving DecidableEq

/-- `Config`: collection name, server address, embedding dimension. -/
structure Config where
  CollectionName : String
  Addr : String
  Dim : Int
deriving DecidableEq

/-- `(cfg *Config).init()`: fill in defaults for the zero values of `Addr`
and `Dim`.  The Go method mutates `cfg` in place; here it returns the
updated value. -/
def Config.init (cfg : Config) : Config :=
  { cfg with
    Addr := if cfg.Addr = "" then "localhost:19530" else cfg.Addr
    Dim := if cfg.Dim = 0 then 1536 else cfg.Dim }

/-- The `Milvus` struct: a client handle and the configuration.  The handle
is abstract (the oracle interprets it); a `Nat` token models it. -/
structure Milvus where
  client : Nat
  cfg : Config

/-- One search result (`client.SearchResult`): the fields used by
`constructSimilaritiesFromResult`. -/
structure SearchResult where
  ResultCount : Int
  Fields : List Column
  Scores : List Float32

/-- Trace of external calls issued by the embedded operations, one
constructor per call site, recording the arguments the Go code passes. -/
inductive Event where
  | newGrpcClient (addr : String)
  | releaseCollection (coll : String)
  | hasCollection (coll : String)
  | createCollection (schema : Schema) (shardNum : Int)
      (consistency : ConsistencyLevel)
  | createIndex (coll : String) (field : String) (idx : IndexIvfFlat)
      (async : Bool)
  | insertCall (coll : String) (partition : String) (cols : List Column)
  | loadCollection (coll : String) (async : Bool)
  | search (coll : String) (partitions : List String) (expr : String)
      (outputFields : List String) (vectors : List (List Float32))
      (vectorField : String) (metric : MetricType) (topK : Int)
      (sp : IndexFlatSearchParam)
  | readFile (filename : String)

/-- The oracle: responses of the external world (Milvus client, file
system, JSON decoder) to each call this package makes.  `Option Err` models
a Go call returning only `error` (`none` = success); `Except` models calls
whose non-error value the code uses. -/
structure World where
  newGrpcClient : String → Except Err Nat
  releaseCollection : String → Option Err
  hasCollection : String → Except Err Bool
  createCollection : Schema → Int → ConsistencyLevel → Option Err
  createIndex : String → String → IndexIvfFlat → Bool → Option Err
  insertCall : String → String → List Column → Except Err Unit
  loadCollection : String → Bool → Option Err
  search : String → List String → String → List String →
      List (List Float32) → String → MetricType → Int →
      IndexFlatSearchParam → Except Err (List SearchResult)
  readFile : String → Except Err String
  unmarshalSections : String → Except Err (List Section)

/-- Outcome of Go code that can return a value, return an error, or panic
(nil-pointer dereference or out-of-range slice index). -/
inductive Outcome (α : Type) where
  | ok (a : α)
  | err (e : Err)
  | panic

/-- `(c *entity.ColumnInt64).ValueByIdx(i)`: errors when the index is out of
range; dereferencing a nil column pointer panics. -/
def valueByIdxInt : Option (List Int) → Nat → Outcome Int
  | none, _ => .panic
  | some vs, i =>
    match vs[i]? with
    | some v => .ok v
    | none => .err "index out of range"

/-- `(c *entity.ColumnVarChar).ValueByIdx(i)`: errors when the index is out
of range; dereferencing a nil column pointer panics. -/
def valueByIdxStr : Option (List String) → Nat → Outcome String
  | none, _ => .panic
  | some vs, i =>
    match vs[i]? with
    | some v => .ok v
    | none => .err "index out of range"

/-- `result.Scores[i]`: a Go slice index, panicking out of range. -/
def scoreAt (scores : List Float32) (i : Nat) : Outcome Float32 :=
  match scores[i]? with
  | some v => .ok v
  | none => .panic

/-- The field-scanning loop of `constructSimilaritiesFromResult`: a switch
on `field.Name()` followed by a type assertion; a later matching field
overwrites an earlier one, a name match with the wrong column type assigns
nothing. -/
def scanFields (fields : List Column) :
    Option (List Int) × Option (List String) × Option (List String) ×
      Option (List String) :=
  fields.foldl
    (fun acc f =>
      if f.name = idCol then
        match f with
        | .int64 _ vs => (some vs, acc.2.1, acc.2.2.1, acc.2.2.2)
        | _ => acc
      else if f.name = titleCol then
        match f with
        | .varchar _ vs => (acc.1, some vs, acc.2.2.1, acc.2.2.2)
        | _ => acc
      else if f.name = headingCol then
        match f with
        | .varchar _ vs => (acc.1, acc.2.1, some vs, acc.2.2.2)
        | _ => acc
      else if f.name = contentCol then
        match f with
        | .varchar _ vs => (acc.1, acc.2.1, acc.2.2.1, some vs)
        | _ => acc
      else acc)
    (none, none, none, none)

/-- The row loop of `constructSimilaritiesFromResult`: for each row index
`i` (running `count` more times), look up the four column values in order
(returning the first lookup error), read the score, and accumulate a
`Similarity`. -/
def constructLoop (ic : Option (List Int)) (tc hc cc : Option (List String))
    (scores : List Float32) (i : Nat) :
    Nat → Outcome (List Similarity)
  | 0 => .ok []
  | count + 1 =>
    match valueByIdxInt ic i with
    | .panic => .panic
    | .err e => .err e
    | .ok iVal =>
      match valueByIdxStr tc i with
      | .panic => .panic
      | .err e => .err e
      | .ok tVal =>
        match valueByIdxStr hc i with
        | .panic => .panic
        | .err e => .err e
        | .ok hVal =>
          match valueByIdxStr cc i with
          | .panic => .panic
          | .err e => .err e
          | .ok cVal =>
            match scoreAt scores i with
            | .panic => .panic
            | .err e => .err e
            | .ok sc =>
              match constructLoop ic tc hc cc scores (i + 1) count with
              | .ok rest =>
                .ok (⟨⟨tVal, hVal, cVal, []⟩, iVal, sc.toF64⟩ :: rest)
              | .err e => .err e
              | .panic => .panic

/-- `constructSimilaritiesFromResult`: scan the result's fields for the
four expected columns, then build one `Similarity` per row
(`0 ≤ i < result.ResultCount`). -/
def constructSimilaritiesFromResult (result : SearchResult) :
    Outcome (List Similarity) :=
  constructLoop (scanFields result.Fields).1 (scanFields result.Fields).2.1
    (scanFields result.Fields).2.2.1 (scanFields result.Fields).2.2.2
    result.Scores 0 result.ResultCount.toNat

/-- The five column-oriented arrays `Insert` builds from its input sections:
entry `i` of the id column is `int64(i)`, the title/heading/content columns
carry the corresponding section fields, and the embedding column carries each
section's embedding narrowed element-wise to `float32`. -/
def insertColumns (dim : Int) (sections : List Section) : List Column :=
  let ids : List Int := (List.range sections.length).map Int.ofNat
  let titles := sections.map Section.Title
  let headings := sections.map Section.Heading
  let contents := sections.map Section.Content
  let embeddings := sections.map (fun s => float64ToNumber s.Embedding)
  [.int64 idCol ids, .varchar titleCol titles,
   .varchar headingCol headings, .varchar contentCol contents,
   .floatVector embeddingCol dim embeddings]

/-- `(m *Milvus).Insert(ctx, sections)`: release the collection, build the
five column arrays, create the IVF_FLAT index, and issue one bulk insert. -/
def Milvus.insert (w : World) (m : Milvus) (sections : List Section) :
    Milvus × List Event × Option Err :=
  match w.releaseCollection m.cfg.CollectionName with
  | some e => (m, [.releaseCollection m.cfg.CollectionName], some e)
  | none =>
    match newIndexIvfFlat .L2 128 with
    | .error e => (m, [.releaseCollection m.cfg.CollectionName], some e)
    | .ok idx =>
      match w.createIndex m.cfg.CollectionName embeddingCol idx false with
      | some e =>
        (m, [.releaseCollection m.cfg.CollectionName,
             .createIndex m.cfg.CollectionName embeddingCol idx false],
         some e)
      | none =>
        match w.insertCall m.cfg.CollectionName ""
            (insertColumns m.cfg.Dim sections) with
        | .error e =>
          (m, [.releaseCollection m.cfg.CollectionName,
               .createIndex m.cfg.CollectionName embeddingCol idx false,
               .insertCall m.cfg.CollectionName ""
                 (insertColumns m.cfg.Dim sections)], some e)
        | .ok _ =>
          (m, [.releaseCollection m.cfg.CollectionName,
               .createIndex m.cfg.CollectionName embeddingCol idx false,
               .insertCall m.cfg.CollectionName ""
                 (insertColumns m.cfg.Dim sections)], none)

/-- `(m *Milvus).LoadJSON(ctx, filename)`: read the file, decode a JSON
array of sections, and forward to `Insert`. -/
def Milvus.loadJSON (w : World) (m : Milvus) (filename : String) :
    Milvus × List Event × Option Err :=
  match w.readFile filename with
  | .error e => (m, [.readFile filename], some e)
  | .ok data =>
    match w.unmarshalSections data with
    | .error e => (m, [.readFile filename], some e)
    | .ok sections =>
      ((Milvus.insert w m sections).1,
       .readFile filename :: (Milvus.insert w m sections).2.1,
       (Milvus.insert w m sections).2.2)

/-- The output-field list `[]string{idCol, titleCol, headingCol, contentCol}`
passed to `Search`. -/
def queryOutputFields : List String :=
  [idCol, titleCol, headingCol, contentCol]

/-- `(m *Milvus).Query(ctx, embedding, topK)`: load the collection, run one
single-vector search, and reshape `result[0]` (a Go index that panics when
the result slice is empty). -/
def Milvus.query (w : World) (m : Milvus) (embedding : List Float)
    (topK : Int) : Milvus × List Event × Outcome (List Similarity) :=
  match w.loadCollection m.cfg.CollectionName false with
  | some e => (m, [.loadCollection m.cfg.CollectionName false], .err e)
  | none =>
    match newIndexFlatSearchParam with
    | .error _ =>
      -- `param, _ :=` discards this error; `NewIndexFlatSearchParam`
      -- never fails, so this branch is unreachable.
      (m, [.loadCollection m.cfg.CollectionName false], .panic)
    | .ok sp =>
      match w.search m.cfg.CollectionName [] "" queryOutputFields
          [float64ToNumber embedding] embeddingCol .L2 topK sp with
      | .error e =>
        (m, [.loadCollection m.cfg.CollectionName false,
             .search m.cfg.CollectionName [] "" queryOutputFields
               [float64ToNumber embedding] embeddingCol .L2 topK sp],
         .err e)
      | .ok [] =>
        (m, [.loadCollection m.cfg.CollectionName false,
             .search m.cfg.CollectionName [] "" queryOutputFields
               [float64ToNumber embedding] embeddingCol .L2 topK sp],
         .panic)
      | .ok (r :: _) =>
        (m, [.loadCollection m.cfg.CollectionName false,
             .search m.cfg.CollectionName [] "" queryOutputFields
               [float64ToNumber embedding] embeddingCol .L2 topK sp],
         constructSimilaritiesFromResult r)

/-- The five-field schema built by `createCollectionIfNotExists` for a
configuration. -/
def schemaFor (cfg : Config) : Schema :=
  { CollectionName := cfg.CollectionName
    AutoID := false
    Fields :=
      [{ Name := idCol, DataType := .int64, PrimaryKey := true,
         TypeParams := [] },
       { Name := titleCol, DataType := .varchar, PrimaryKey := false,
         TypeParams := [(typeParamMaxLength, toString (50 : Nat))] },
       { Name := headingCol, DataType := .varchar, PrimaryKey := false,
         TypeParams := [(typeParamMaxLength, toString (50 : Nat))] },
       { Name := contentCol, DataType := .varchar, PrimaryKey := false,
         TypeParams := [(typeParamMaxLength, toString (5000 : Nat))] },
       { Name := embeddingCol, DataType := .floatVector, PrimaryKey := false,
         TypeParams := [(typeParamDim, toString cfg.Dim)] }] }

/-- `(m *Milvus).createCollectionIfNotExists(ctx)`: check existence and
create the collection (shard number 2, bounded consistency) only when it is
absent. -/
def Milvus.createCollectionIfNotExists (w : World) (m : Milvus) :
    List Event × Option Err :=
  match w.hasCollection m.cfg.CollectionName with
  | .error e => ([.hasCollection m.cfg.CollectionName], some e)
  | .ok true => ([.hasCollection m.cfg.CollectionName], none)
  | .ok false =>
    match w.createCollection (schemaFor m.cfg) 2 .clBounded with
    | some e =>
      ([.hasCollection m.cfg.CollectionName,
        .createCollection (schemaFor m.cfg) 2 .clBounded], some e)
    | none =>
      ([.hasCollection m.cfg.CollectionName,
        .createCollection (schemaFor m.cfg) 2 .clBounded], none)

/-- `NewMilvus(cfg)`: initialize the configuration, connect, release the
collection (error deliberately discarded), and provision the collection if
absent. -/
def NewMilvus (w : World) (cfg : Config) :
    List Event × Except Err Milvus :=
  match w.newGrpcClient (Config.init cfg).Addr with
  | .error e => ([.newGrpcClient (Config.init cfg).Addr], .error e)
  | .ok c =>
    -- `_ = m.client.ReleaseCollection(ctx, ...)`: the call is issued, its
    -- error is dropped.
    match (Milvus.createCollectionIfNotExists w ⟨c, Config.init cfg⟩).2 with
    | some e =>
      ([Event.newGrpcClient (Config.init cfg).Addr,
        Event.releaseCollection (Config.init cfg).CollectionName] ++
         (Milvus.createCollectionIfNotExists w ⟨c, Config.init cfg⟩).1,
       .error e)
    | none =>
      ([Event.newGrpcClient (Config.init cfg).Addr,
        Event.releaseCollection (Config.init cfg).CollectionName] ++
         (Milvus.createCollectionIfNotExists w ⟨c, Config.init cfg⟩).1,
       .ok ⟨c, Config.init cfg⟩)

/-! Concrete oracles and inputs, used to evaluate the embedded operations at
specific points. -/

/-- A configuration with zero-valued `Addr` and `Dim`. -/
def cfgEx : Config :=
  { CollectionName := "docs", Addr := "", Dim := 0 }

/-- A `Milvus` value as `NewMilvus` would build it from `cfgEx`. -/
def mEx : Milvus :=
  { client := 0, cfg := Config.init cfgEx }

/-- A concrete section with an empty embedding. -/
def secEx : Section :=
  { Title := "T", Heading := "H", Content := "C", Embedding := [] }

/-- An oracle on which every external call succeeds. -/
def okWorld : World where
  newGrpcClient _ := .ok 0
  releaseCollection _ := none
  hasCollection _ := .ok true
  createCollection _ _ _ := none
  createIndex _ _ _ _ := none
  insertCall _ _ _ := .ok ()
  loadCollection _ _ := none
  search _ _ _ _ _ _ _ _ _ := .ok []
  readFile _ := .ok "[]"
  unmarshalSections _ := .ok []

/-- `okWorld`, except that releasing any collection fails. -/
def failReleaseWorld : World :=
  { okWorld with releaseCollection := fun _ => some "release failed" }

/-- `okWorld`, except that creating any index fails. -/
def failIndexWorld : World :=
  { okWorld with createIndex := fun _ _ _ _ => some "index failed" }

/-- `okWorld`, except that the bulk-insert call fails. -/
def failInsertWorld : World :=
  { okWorld with insertCall := fun _ _ _ => .error "insert failed" }

/-- `okWorld`, except that loading any collection fails. -/
def failLoadWorld : World :=
  { okWorld with loadCollection := fun _ _ => some "load failed" }

/-- `okWorld`, except that reading any file fails. -/
def failReadWorld : World :=
  { okWorld with readFile := fun _ => .error "read failed" }

/-- `okWorld`, except that JSON decoding fails. -/
def failUnmarshalWorld : World :=
  { okWorld with unmarshalSections := fun _ => .error "unmarshal failed" }

/-- `okWorld`, except that the collection does not exist yet. -/
def notExistWorld : World :=
  { okWorld with hasCollection := fun _ => .ok false }

/-- A well-formed one-row search result. -/
def resultEx : SearchResult :=
  { ResultCount := 1
    Fields := [.int64 idCol [7], .varchar titleCol ["T"],
               .varchar headingCol ["H"], .varchar contentCol ["C"]]
    Scores := [⟨0.5⟩] }

/-- `okWorld`, except that every search returns `[resultEx]`. -/
def searchOkWorld : World :=
  { okWorld with search := fun _ _ _ _ _ _ _ _ _ => .ok [resultEx] }

/-- A one-row result whose four columns are well formed but whose `Scores`
slice is empty. -/
def resultScoresShort : SearchResult :=
  { ResultCount := 1
    Fields := [.int64 idCol [7], .varchar titleCol ["T"],
               .varchar headingCol ["H"], .varchar contentCol ["C"]]
    Scores := [] }

/-- A one-row result whose title column is absent while the id column is
present but empty. -/
def resultIdEmpty : SearchResult :=
  { ResultCount := 1
    Fields := [.int64 idCol [], .varchar headingCol ["H"],
               .varchar contentCol ["C"]]
    Scores := [] }

/-- A one-row result whose title column is absent while the id, heading and
content columns are present with one value each. -/
def resultTitleMissing : SearchResult :=
  { ResultCount := 1
    Fields := [.int64 idCol [7], .varchar headingCol ["H"],
               .varchar contentCol ["C"]]
    Scores := [] }

/-! Theorems. -/

/-- `entity.NewIndexIvfFlat(entity.L2, 128)` always succeeds: 128 lies in
the accepted nlist range. -/
theorem newIndexIvfFlat_L2_128 :
    newIndexIvfFlat MetricType.L2 128 = .ok ⟨MetricType.L2, 128⟩ := rfl

theorem Milvus.insert_fst (w : World) (m : Milvus) (sections : List Section) :
    (Milvus.insert w m sections).1 = m := by
  unfold Milvus.insert
  split
  · rfl
  · split
    · rfl
    · split
      · rfl
      · split <;> rfl

theorem Milvus.query_fst (w : World) (m : Milvus) (embedding : List Float)
    (topK : Int) : (Milvus.query w m embedding topK).1 = m := by
  unfold Milvus.query
  split
  · rfl
  · split
    · rfl
    · split <;> rfl

theorem Milvus.loadJSON_fst (w : World) (m : Milvus) (filename : String) :
    (Milvus.loadJSON w m filename).1 = m := by
  unfold Milvus.loadJSON
  split
  · rfl
  · split
    · rfl
    · exact Milvus.insert_fst w m _

/-- C7: `Insert`, `Query` and `LoadJSON` leave every field of the `Milvus`
value unchanged: the Go methods never assign to `m.client` or to the fields
of `m.cfg`, so the final `Milvus` value equals the initial one (hence the
client handle and `CollectionName`, `Addr`, `Dim` are all preserved). -/
theorem C7_frame (w : World) (m : Milvus) (sections : List Section)
    (embedding : List Float) (topK : Int) (filename : String) :
    (Milvus.insert w m sections).1 = m ∧
    (Milvus.query w m embedding topK).1 = m ∧
    (Milvus.loadJSON w m filename).1 = m :=
  ⟨Milvus.insert_fst w m sections, Milvus.query_fst w m embedding topK,
   Milvus.loadJSON_fst w m filename⟩

/-- C8: `Config.init` (run by `NewMilvus` on the caller's configuration)
sets `Addr` to "localhost:19530" exactly when it is empty and `Dim` to 1536
exactly when it is 0, leaves non-zero values alone, never touches
`CollectionName`; and the `Milvus` value `NewMilvus` returns carries exactly
the initialized configuration. -/
theorem C8_config_init (cfg : Config) :
    (Config.init cfg).Addr =
      (if cfg.Addr = "" then "localhost:19530" else cfg.Addr) ∧
    (Config.init cfg).Dim = (if cfg.Dim = 0 then 1536 else cfg.Dim) ∧
    (Config.init cfg).CollectionName = cfg.CollectionName ∧
    (∀ (w : World) (m : Milvus),
      (NewMilvus w cfg).2 = .ok m → m.cfg = Config.init cfg) := by
  refine ⟨by simp [Config.init], by simp [Config.init],
    by simp [Config.init], ?_⟩
  intro w m h
  unfold NewMilvus at h
  split at h
  · simp at h
  · split at h
    · simp at h
    · simp only [Except.ok.injEq] at h
      rw [← h]

/-- Witness for C8 at the concrete configuration `cfgEx` and oracle
`okWorld`. -/
theorem C8_config_init_witness :
    (Config.init cfgEx).Addr =
      (if cfgEx.Addr = "" then "localhost:19530" else cfgEx.Addr) ∧
    mEx.cfg = Config.init cfgEx :=
  ⟨(C8_config_init cfgEx).1,
   (C8_config_init cfgEx).2.2.2 okWorld mEx rfl⟩

/-- When the collection exists, `createCollectionIfNotExists` only checks
existence and creates nothing. -/
theorem createCollectionIfNotExists_exists (w : World) (m : Milvus)
    (h : w.hasCollection m.cfg.CollectionName = .ok true) :
    Milvus.createCollectionIfNotExists w m =
      ([.hasCollection m.cfg.CollectionName], none) := by
  unfold Milvus.createCollectionIfNotExists
  rw [h]

/-- When the collection is absent, `createCollectionIfNotExists` creates it
with the schema built from the configuration, propagating the client's
answer. -/
theorem createCollectionIfNotExists_absent (w : World) (m : Milvus)
    (h : w.hasCollection m.cfg.CollectionName = .ok false) :
    Milvus.createCollectionIfNotExists w m =
      ([.hasCollection m.cfg.CollectionName,
        .createCollection (schemaFor m.cfg) 2 .clBounded],
       w.createCollection (schemaFor m.cfg) 2 .clBounded) := by
  unfold Milvus.createCollectionIfNotExists
  rw [h]
  cases hc : w.createCollection (schemaFor m.cfg) 2 .clBounded <;> rfl

/-- After a successful connection, `NewMilvus` issues the connect and
release calls and then defers to `createCollectionIfNotExists`. -/
theorem newMilvus_connected (w : World) (cfg : Config) (c : Nat)
    (hconn : w.newGrpcClient (Config.init cfg).Addr = .ok c) :
    NewMilvus w cfg =
      ([.newGrpcClient (Config.init cfg).Addr,
        .releaseCollection (Config.init cfg).CollectionName] ++
         (Milvus.createCollectionIfNotExists w ⟨c, Config.init cfg⟩).1,
       match (Milvus.createCollectionIfNotExists w ⟨c, Config.init cfg⟩).2 with
       | some e => .error e
       | none => .ok ⟨c, Config.init cfg⟩) := by
  unfold NewMilvus
  simp only [hconn]
  cases h2 : (Milvus.createCollectionIfNotExists w ⟨c, Config.init cfg⟩).2 <;>
    simp only [h2]

/-- C5: after a successful connection, `NewMilvus` first releases the target
collection, then checks existence; when the collection exists it issues no
creation call (the schema is left unchanged), and when it is absent it
creates the collection with the five-field schema (int64 primary-key `id`
with `AutoID` disabled, varchar `title`/`heading` of max length 50, varchar
`content` of max length 5000, float-vector `embedding` of dimension
`Dim`). -/
theorem C5_newMilvus_provisioning (w : World) (cfg : Config) (c : Nat)
    (hconn : w.newGrpcClient (Config.init cfg).Addr = .ok c) :
    (w.hasCollection (Config.init cfg).CollectionName = .ok true →
      (NewMilvus w cfg).1 =
        [.newGrpcClient (Config.init cfg).Addr,
         .releaseCollection (Config.init cfg).CollectionName,
         .hasCollection (Config.init cfg).CollectionName] ∧
      (NewMilvus w cfg).2 = .ok ⟨c, Config.init cfg⟩) ∧
    (w.hasCollection (Config.init cfg).CollectionName = .ok false →
      (NewMilvus w cfg).1 =
        [.newGrpcClient (Config.init cfg).Addr,
         .releaseCollection (Config.init cfg).CollectionName,
         .hasCollection (Config.init cfg).CollectionName,
         .createCollection
           { CollectionName := (Config.init cfg).CollectionName
             AutoID := false
             Fields :=
               [{ Name := idCol, DataType := .int64, PrimaryKey := true,
                  TypeParams := [] },
                { Name := titleCol, DataType := .varchar,
                  PrimaryKey := false,
                  TypeParams := [(typeParamMaxLength, "50")] },
                { Name := headingCol, DataType := .varchar,
                  PrimaryKey := false,
                  TypeParams := [(typeParamMaxLength, "50")] },
                { Name := contentCol, DataType := .varchar,
                  PrimaryKey := false,
                  TypeParams := [(typeParamMaxLength, "5000")] },
                { Name := embeddingCol, DataType := .floatVector,
                  PrimaryKey := false,
                  TypeParams :=
                    [(typeParamDim, toString (Config.init cfg).Dim)] }] }
           2 .clBounded]) := by
  constructor
  · intro hhas
    rw [newMilvus_connected w cfg c hconn,
        createCollectionIfNotExists_exists w ⟨c, Config.init cfg⟩ hhas]
    exact ⟨rfl, rfl⟩
  · intro hhas
    rw [newMilvus_connected w cfg c hconn,
        createCollectionIfNotExists_absent w ⟨c, Config.init cfg⟩ hhas]
    rfl

/-- Witness for C5 at the concrete oracle `okWorld` (the collection exists)
and configuration `cfgEx`. -/
theorem C5_newMilvus_provisioning_witness :
    (NewMilvus okWorld cfgEx).1 =
      [.newGrpcClient (Config.init cfgEx).Addr,
       .releaseCollection (Config.init cfgEx).CollectionName,
       .hasCollection (Config.init cfgEx).CollectionName] ∧
    (NewMilvus okWorld cfgEx).2 = .ok ⟨0, Config.init cfgEx⟩ :=
  (C5_newMilvus_provisioning okWorld cfgEx 0 rfl).1 rfl

/-- When the initial release fails, `Insert` stops there. -/
theorem insert_release_err (w : World) (m : Milvus) (sections : List Section)
    (e : Err) (h : w.releaseCollection m.cfg.CollectionName = some e) :
    Milvus.insert w m sections =
      (m, [.releaseCollection m.cfg.CollectionName], some e) := by
  unfold Milvus.insert
  rw [h]

/-- When the release succeeds and `CreateIndex` fails, `Insert` stops
there. -/
theorem insert_createIndex_err (w : World) (m : Milvus)
    (sections : List Section) (e : Err)
    (h1 : w.releaseCollection m.cfg.CollectionName = none)
    (h2 : w.createIndex m.cfg.CollectionName embeddingCol
      ⟨MetricType.L2, 128⟩ false = some e) :
    Milvus.insert w m sections =
      (m, [.releaseCollection m.cfg.CollectionName,
           .createIndex m.cfg.CollectionName embeddingCol
             ⟨MetricType.L2, 128⟩ false], some e) := by
  unfold Milvus.insert
  simp only [h1, newIndexIvfFlat_L2_128, h2]

/-- When release and `CreateIndex` succeed, `Insert` issues exactly one bulk
insert of the five column arrays, propagating its outcome. -/
theorem insert_success_path (w : World) (m : Milvus)
    (sections : List Section)
    (h1 : w.releaseCollection m.cfg.CollectionName = none)
    (h2 : w.createIndex m.cfg.CollectionName embeddingCol
      ⟨MetricType.L2, 128⟩ false = none) :
    Milvus.insert w m sections =
      (m, [.releaseCollection m.cfg.CollectionName,
           .createIndex m.cfg.CollectionName embeddingCol
             ⟨MetricType.L2, 128⟩ false,
           .insertCall m.cfg.CollectionName ""
             (insertColumns m.cfg.Dim sections)],
       match w.insertCall m.cfg.CollectionName ""
           (insertColumns m.cfg.Dim sections) with
       | .error e => some e
       | .ok _ => none) := by
  unfold Milvus.insert
  simp only [h1, newIndexIvfFlat_L2_128, h2]
  cases h3 : w.insertCall m.cfg.CollectionName ""
      (insertColumns m.cfg.Dim sections) <;> simp only [h3]

/-- When loading the collection fails, `Query` stops there. -/
theorem query_load_err (w : World) (m : Milvus) (embedding : List Float)
    (topK : Int) (e : Err)
    (h : w.loadCollection m.cfg.CollectionName false = some e) :
    Milvus.query w m embedding topK =
      (m, [.loadCollection m.cfg.CollectionName false], .err e) := by
  unfold Milvus.query
  rw [h]

/-- When loading succeeds, `Query` issues exactly one search and reshapes
`result[0]` of its answer. -/
theorem query_loaded_eq (w : World) (m : Milvus) (embedding : List Float)
    (topK : Int)
    (h : w.loadCollection m.cfg.CollectionName false = none) :
    Milvus.query w m embedding topK =
      (m, [.loadCollection m.cfg.CollectionName false,
           .search m.cfg.CollectionName [] "" queryOutputFields
             [float64ToNumber embedding] embeddingCol .L2 topK ⟨⟩],
       match w.search m.cfg.CollectionName [] "" queryOutputFields
           [float64ToNumber embedding] embeddingCol .L2 topK ⟨⟩ with
       | .error e => .err e
       | .ok [] => .panic
       | .ok (r :: _) => constructSimilaritiesFromResult r) := by
  unfold Milvus.query
  simp only [h, newIndexFlatSearchParam]
  cases h2 : w.search m.cfg.CollectionName [] "" queryOutputFields
      [float64ToNumber embedding] embeddingCol .L2 topK ⟨⟩ with
  | error e => simp only [h2]
  | ok results => cases results <;> simp only [h2]

/-- C10: if `Insert`'s initial release fails, or its `CreateIndex` call
fails, `Insert` returns that error and its trace contains no bulk-insert
call, so no rows are sent; constructing the IVF_FLAT descriptor itself
(`NewIndexIvfFlat(L2, 128)`) cannot fail, so that error branch is
unreachable. -/
theorem C10_insert_no_rows_on_early_error (w : World) (m : Milvus)
    (sections : List Section) (e : Err) :
    newIndexIvfFlat MetricType.L2 128 = .ok ⟨MetricType.L2, 128⟩ ∧
    (w.releaseCollection m.cfg.CollectionName = some e →
      (Milvus.insert w m sections).2.2 = some e ∧
      (Milvus.insert w m sections).2.1 =
        [.releaseCollection m.cfg.CollectionName]) ∧
    (w.releaseCollection m.cfg.CollectionName = none →
      w.createIndex m.cfg.CollectionName embeddingCol
        ⟨MetricType.L2, 128⟩ false = some e →
      (Milvus.insert w m sections).2.2 = some e ∧
      (Milvus.insert w m sections).2.1 =
        [.releaseCollection m.cfg.CollectionName,
         .createIndex m.cfg.CollectionName embeddingCol
           ⟨MetricType.L2, 128⟩ false]) := by
  refine ⟨rfl, ?_, ?_⟩
  · intro h
    rw [insert_release_err w m sections e h]
    exact ⟨rfl, rfl⟩
  · intro h1 h2
    rw [insert_createIndex_err w m sections e h1 h2]
    exact ⟨rfl, rfl⟩

/-- Witness for C10: with a failing release, `Insert` returns the release
error and issues no bulk insert. -/
theorem C10_insert_no_rows_on_early_error_witness :
    (Milvus.insert failReleaseWorld mEx []).2.2 = some "release failed" ∧
    (Milvus.insert failReleaseWorld mEx []).2.1 =
      [.releaseCollection mEx.cfg.CollectionName] :=
  (C10_insert_no_rows_on_early_error failReleaseWorld mEx []
    "release failed").2.1 rfl

/-- C1: on the success path, `Insert` first releases the collection, then
creates the IVF_FLAT index on the embedding column, then issues exactly one
bulk insert of five column arrays; all five arrays have the length of the
input, entry `i` of the id column is `i`, entry `i` of the title, heading
and content columns are the fields of the `i`-th section, and entry `i` of
the embedding column is the `i`-th embedding narrowed element-wise to
`float32`. -/
theorem C1_insert_order_payload (w : World) (m : Milvus)
    (sections : List Section)
    (hrel : w.releaseCollection m.cfg.CollectionName = none)
    (hidx : w.createIndex m.cfg.CollectionName embeddingCol
      ⟨MetricType.L2, 128⟩ false = none) :
    (Milvus.insert w m sections).2.1 =
      [.releaseCollection m.cfg.CollectionName,
       .createIndex m.cfg.CollectionName embeddingCol
         ⟨MetricType.L2, 128⟩ false,
       .insertCall m.cfg.CollectionName ""
         [.int64 idCol ((List.range sections.length).map Int.ofNat),
          .varchar titleCol (sections.map Section.Title),
          .varchar headingCol (sections.map Section.Heading),
          .varchar contentCol (sections.map Section.Content),
          .floatVector embeddingCol m.cfg.Dim
            (sections.map (fun s => s.Embedding.map Float.toF32))]] ∧
    ((List.range sections.length).map Int.ofNat).length = sections.length ∧
    (sections.map Section.Title).length = sections.length ∧
    (sections.map Section.Heading).length = sections.length ∧
    (sections.map Section.Content).length = sections.length ∧
    (sections.map (fun s => s.Embedding.map Float.toF32)).length =
      sections.length ∧
    (∀ i, i < sections.length →
      ((List.range sections.length).map Int.ofNat)[i]? =
        some (Int.ofNat i)) ∧
    (∀ (i : Nat) (s : Section), sections[i]? = some s →
      (sections.map Section.Title)[i]? = some s.Title ∧
      (sections.map Section.Heading)[i]? = some s.Heading ∧
      (sections.map Section.Content)[i]? = some s.Content ∧
      (sections.map (fun s => s.Embedding.map Float.toF32))[i]? =
        some (s.Embedding.map Float.toF32)) := by
  refine ⟨?_, by simp, by simp, by simp, by simp, by simp, ?_, ?_⟩
  · rw [insert_success_path w m sections hrel hidx]
    rfl
  · intro i hi
    simp [List.getElem?_map, List.getElem?_range, hi]
  · intro i s hs
    simp [List.getElem?_map, hs]

/-- Witness for C1 at one concrete section, on the all-success oracle. -/
theorem C1_insert_order_payload_witness :
    (Milvus.insert okWorld mEx [secEx]).2.1 =
      [.releaseCollection mEx.cfg.CollectionName,
       .createIndex mEx.cfg.CollectionName embeddingCol
         ⟨MetricType.L2, 128⟩ false,
       .insertCall mEx.cfg.CollectionName ""
         [.int64 idCol [0], .varchar titleCol ["T"],
          .varchar headingCol ["H"], .varchar contentCol ["C"],
          .floatVector embeddingCol mEx.cfg.Dim [[]]]] :=
  ((C1_insert_order_payload okWorld mEx [secEx] rfl rfl).1).trans rfl

/-- C4: `Query` first loads the target collection; if that fails it returns
the load error and issues no search; otherwise it issues exactly one search
with a single query vector (the embedding narrowed element-wise to
`float32`), limit `topK`, the embedding vector field, the L2 metric and the
four output fields id, title, heading, content. -/
theorem C4_query_load_then_search (w : World) (m : Milvus)
    (embedding : List Float) (topK : Int) :
    (∀ e, w.loadCollection m.cfg.CollectionName false = some e →
      Milvus.query w m embedding topK =
        (m, [.loadCollection m.cfg.CollectionName false], .err e)) ∧
    (w.loadCollection m.cfg.CollectionName false = none →
      (Milvus.query w m embedding topK).2.1 =
        [.loadCollection m.cfg.CollectionName false,
         .search m.cfg.CollectionName [] ""
           [idCol, titleCol, headingCol, contentCol]
           [embedding.map Float.toF32] embeddingCol .L2 topK ⟨⟩]) := by
  constructor
  · intro e h
    exact query_load_err w m embedding topK e h
  · intro h
    rw [query_loaded_eq w m embedding topK h]
    rfl

/-- Witness for C4: with a failing load, `Query` returns the load error and
issues no search. -/
theorem C4_query_load_then_search_witness :
    Milvus.query failLoadWorld mEx [] 3 =
      (mEx, [.loadCollection mEx.cfg.CollectionName false],
       .err "load failed") :=
  (C4_query_load_then_search failLoadWorld mEx [] 3).1 "load failed" rfl

/-- C6: `LoadJSON` reads the file and decodes a JSON array of sections; on
a read or decode error it returns that error having made no client call,
and otherwise it behaves exactly as `Insert` on the decoded sections. -/
theorem C6_loadJSON (w : World) (m : Milvus) (filename : String) :
    (∀ e, w.readFile filename = .error e →
      (Milvus.loadJSON w m filename).2.1 = [.readFile filename] ∧
      (Milvus.loadJSON w m filename).2.2 = some e) ∧
    (∀ (data : String) (e : Err), w.readFile filename = .ok data →
      w.unmarshalSections data = .error e →
      (Milvus.loadJSON w m filename).2.1 = [.readFile filename] ∧
      (Milvus.loadJSON w m filename).2.2 = some e) ∧
    (∀ (data : String) (sections : List Section),
      w.readFile filename = .ok data →
      w.unmarshalSections data = .ok sections →
      (Milvus.loadJSON w m filename).2.1 =
        .readFile filename :: (Milvus.insert w m sections).2.1 ∧
      (Milvus.loadJSON w m filename).2.2 =
        (Milvus.insert w m sections).2.2) := by
  refine ⟨?_, ?_, ?_⟩
  · intro e h
    unfold Milvus.loadJSON
    rw [h]
    exact ⟨rfl, rfl⟩
  · intro data e h1 h2
    unfold Milvus.loadJSON
    simp [h1, h2]
  · intro data sections h1 h2
    unfold Milvus.loadJSON
    simp [h1, h2]

/-- Witness for C6: with a failing read, `LoadJSON` returns the read error
and issues no client call. -/
theorem C6_loadJSON_witness :
    (Milvus.loadJSON failReadWorld mEx "kb.json").2.1 =
      [.readFile "kb.json"] ∧
    (Milvus.loadJSON failReadWorld mEx "kb.json").2.2 = some "read failed" :=
  (C6_loadJSON failReadWorld mEx "kb.json").1 "read failed" rfl

/-- When the connection itself fails, `NewMilvus` stops there. -/
theorem newMilvus_connect_err (w : World) (cfg : Config) (e : Err)
    (h : w.newGrpcClient (Config.init cfg).Addr = .error e) :
    NewMilvus w cfg =
      ([.newGrpcClient (Config.init cfg).Addr], .error e) := by
  unfold NewMilvus
  rw [h]

/-- When the existence check fails, `createCollectionIfNotExists` returns
that error. -/
theorem createCollectionIfNotExists_has_err (w : World) (m : Milvus)
    (e : Err) (h : w.hasCollection m.cfg.CollectionName = .error e) :
    Milvus.createCollectionIfNotExists w m =
      ([.hasCollection m.cfg.CollectionName], some e) := by
  unfold Milvus.createCollectionIfNotExists
  rw [h]

/-- C3 counterexample: the claim that no client-call error is discarded is
false.  On an oracle whose `ReleaseCollection` fails while every other call
succeeds, `NewMilvus` still returns success: the error of its
`ReleaseCollection` call (`_ = m.client.ReleaseCollection(...)`) is
discarded. -/
theorem C3_counterexample :
    failReleaseWorld.releaseCollection (Config.init cfgEx).CollectionName =
      some "release failed" ∧
    (NewMilvus failReleaseWorld cfgEx).2 = .ok ⟨0, Config.init cfgEx⟩ :=
  ⟨rfl, rfl⟩

/-- C3 (amended): every error of a client call made during `NewMilvus`,
`Insert` or `Query` is returned unchanged to the caller, except the error
of the initial `ReleaseCollection` call in `NewMilvus`, which the code
deliberately discards. -/
theorem C3_error_passthrough (w : World) (cfg : Config) (m : Milvus)
    (sections : List Section) (embedding : List Float) (topK : Int)
    (e : Err) :
    (w.newGrpcClient (Config.init cfg).Addr = .error e →
      (NewMilvus w cfg).2 = .error e) ∧
    (∀ c, w.newGrpcClient (Config.init cfg).Addr = .ok c →
      w.hasCollection (Config.init cfg).CollectionName = .error e →
      (NewMilvus w cfg).2 = .error e) ∧
    (∀ c, w.newGrpcClient (Config.init cfg).Addr = .ok c →
      w.hasCollection (Config.init cfg).CollectionName = .ok false →
      w.createCollection (schemaFor (Config.init cfg)) 2 .clBounded =
        some e →
      (NewMilvus w cfg).2 = .error e) ∧
    (w.releaseCollection m.cfg.CollectionName = some e →
      (Milvus.insert w m sections).2.2 = some e) ∧
    (w.releaseCollection m.cfg.CollectionName = none →
      w.createIndex m.cfg.CollectionName embeddingCol
        ⟨MetricType.L2, 128⟩ false = some e →
      (Milvus.insert w m sections).2.2 = some e) ∧
    (w.releaseCollection m.cfg.CollectionName = none →
      w.createIndex m.cfg.CollectionName embeddingCol
        ⟨MetricType.L2, 128⟩ false = none →
      w.insertCall m.cfg.CollectionName ""
        (insertColumns m.cfg.Dim sections) = .error e →
      (Milvus.insert w m sections).2.2 = some e) ∧
    (w.loadCollection m.cfg.CollectionName false = some e →
      (Milvus.query w m embedding topK).2.2 = .err e) ∧
    (w.loadCollection m.cfg.CollectionName false = none →
      w.search m.cfg.CollectionName [] "" queryOutputFields
        [float64ToNumber embedding] embeddingCol .L2 topK ⟨⟩ = .error e →
      (Milvus.query w m embedding topK).2.2 = .err e) := by
  refine ⟨?_, ?_, ?_, ?_, ?_, ?_, ?_, ?_⟩
  · intro h
    rw [newMilvus_connect_err w cfg e h]
  · intro c hc hh
    rw [newMilvus_connected w cfg c hc,
        createCollectionIfNotExists_has_err w ⟨c, Config.init cfg⟩ e hh]
  · intro c hc hh hcc
    rw [newMilvus_connected w cfg c hc,
        createCollectionIfNotExists_absent w ⟨c, Config.init cfg⟩ hh]
    simp only [hcc]
  · intro h
    rw [insert_release_err w m sections e h]
  · intro h1 h2
    rw [insert_createIndex_err w m sections e h1 h2]
  · intro h1 h2 h3
    rw [insert_success_path w m sections h1 h2]
    simp only [h3]
  · intro h
    rw [query_load_err w m embedding topK e h]
  · intro h1 h2
    rw [query_loaded_eq w m embedding topK h1]
    simp only [h2]

/-- Witness for the amended C3: a failing bulk-insert call's error is
returned unchanged by `Insert`. -/
theorem C3_error_passthrough_witness :
    failInsertWorld.insertCall mEx.cfg.CollectionName ""
      (insertColumns mEx.cfg.Dim []) = .error "insert failed" ∧
    (Milvus.insert failInsertWorld mEx []).2.2 = some "insert failed" :=
  ⟨rfl,
   (C3_error_passthrough failInsertWorld cfgEx mEx [] [] 0
     "insert failed").2.2.2.2.2.1 rfl rfl rfl⟩

/-- When all four columns are present and long enough (and `Scores` too),
the row loop of `constructSimilaritiesFromResult` succeeds, producing one
similarity per remaining row, in row order. -/
theorem constructLoop_ok (ivs : List Int) (tvs hvs cvs : List String)
    (scores : List Float32) :
    ∀ (count i : Nat), i + count ≤ ivs.length → i + count ≤ tvs.length →
      i + count ≤ hvs.length → i + count ≤ cvs.length →
      i + count ≤ scores.length →
      ∃ sims,
        constructLoop (some ivs) (some tvs) (some hvs) (some cvs) scores i
            count = .ok sims ∧
        sims.length = count ∧
        ∀ (j : Nat) (sim : Similarity), sims[j]? = some sim →
          ivs[i + j]? = some sim.ID ∧
          tvs[i + j]? = some sim.sect.Title ∧
          hvs[i + j]? = some sim.sect.Heading ∧
          cvs[i + j]? = some sim.sect.Content ∧
          (scores[i + j]?).map Float32.toF64 = some sim.Score ∧
          sim.sect.Embedding = [] := by
  intro count
  induction count with
  | zero =>
    intro i h1 h2 h3 h4 h5
    exact ⟨[], rfl, rfl, by simp⟩
  | succ n ih =>
    intro i h1 h2 h3 h4 h5
    obtain ⟨rest, hrest, hlen, hget⟩ :=
      ih (i + 1) (by omega) (by omega) (by omega) (by omega) (by omega)
    have hIv : ivs[i]? = some (ivs.get ⟨i, by omega⟩) :=
      List.getElem?_eq_getElem (by omega)
    have hTv : tvs[i]? = some (tvs.get ⟨i, by omega⟩) :=
      List.getElem?_eq_getElem (by omega)
    have hHv : hvs[i]? = some (hvs.get ⟨i, by omega⟩) :=
      List.getElem?_eq_getElem (by omega)
    have hCv : cvs[i]? = some (cvs.get ⟨i, by omega⟩) :=
      List.getElem?_eq_getElem (by omega)
    have hSc : scores[i]? = some (scores.get ⟨i, by omega⟩) :=
      List.getElem?_eq_getElem (by omega)
    refine ⟨⟨⟨tvs.get ⟨i, by omega⟩, hvs.get ⟨i, by omega⟩,
      cvs.get ⟨i, by omega⟩, []⟩, ivs.get ⟨i, by omega⟩,
      (scores.get ⟨i, by omega⟩).toF64⟩ :: rest, ?_, ?_, ?_⟩
    · simp only [constructLoop, valueByIdxInt, valueByIdxStr, scoreAt,
        hIv, hTv, hHv, hCv, hSc, hrest]
    · simp [hlen]
    · intro j sim hj
      match j with
      | 0 =>
        simp only [List.getElem?_cons_zero, Option.some.injEq] at hj
        subst hj
        refine ⟨?_, ?_, ?_, ?_, ?_, rfl⟩ <;> simp [hIv, hTv, hHv, hCv, hSc]
      | k + 1 =>
        simp only [List.getElem?_cons_succ] at hj
        have e : i + (k + 1) = (i + 1) + k := by omega
        rw [e]
        exact hget k sim hj

/-- C2: for a well-formed search result returned by the database, `Query`
reshapes it into one similarity per row, preserving row order: the `j`-th
similarity takes Title, Heading and Content from the title, heading and
content columns at index `j`, ID from the id column at index `j` (the Go
`int(...)` narrowing is the identity on 64-bit platforms), and Score is the
`j`-th score widened from `float32` to `float64`; the Embedding of each
reshaped section is left empty. -/
theorem C2_query_reshapes (w : World) (m : Milvus) (embedding : List Float)
    (topK : Int) (r : SearchResult) (rest : List SearchResult)
    (ivs : List Int) (tvs hvs cvs : List String)
    (hload : w.loadCollection m.cfg.CollectionName false = none)
    (hsearch : w.search m.cfg.CollectionName [] "" queryOutputFields
      [float64ToNumber embedding] embeddingCol .L2 topK ⟨⟩ = .ok (r :: rest))
    (hscan : scanFields r.Fields = (some ivs, some tvs, some hvs, some cvs))
    (hcount : 0 ≤ r.ResultCount)
    (hlen1 : r.ResultCount.toNat ≤ ivs.length)
    (hlen2 : r.ResultCount.toNat ≤ tvs.length)
    (hlen3 : r.ResultCount.toNat ≤ hvs.length)
    (hlen4 : r.ResultCount.toNat ≤ cvs.length)
    (hlen5 : r.ResultCount.toNat ≤ r.Scores.length) :
    ∃ sims, (Milvus.query w m embedding topK).2.2 = .ok sims ∧
      Int.ofNat sims.length = r.ResultCount ∧
      ∀ (j : Nat) (sim : Similarity), sims[j]? = some sim →
        ivs[j]? = some sim.ID ∧
        tvs[j]? = some sim.sect.Title ∧
        hvs[j]? = some sim.sect.Heading ∧
        cvs[j]? = some sim.sect.Content ∧
        (r.Scores[j]?).map Float32.toF64 = some sim.Score ∧
        sim.sect.Embedding = [] := by
  obtain ⟨sims, hs, hlen, hget⟩ :=
    constructLoop_ok ivs tvs hvs cvs r.Scores r.ResultCount.toNat 0
      (by omega) (by omega) (by omega) (by omega) (by omega)
  refine ⟨sims, ?_, ?_, ?_⟩
  · rw [query_loaded_eq w m embedding topK hload]
    simp only [hsearch]
    unfold constructSimilaritiesFromResult
    rw [hscan]
    exact hs
  · rw [hlen]
    exact Int.toNat_of_nonneg hcount
  · intro j sim hj
    have h := hget j sim hj
    simpa using h

/-- Witness for C2 at the concrete one-row result `resultEx`. -/
theorem C2_query_reshapes_witness :
    ∃ sims, (Milvus.query searchOkWorld mEx [] 3).2.2 = .ok sims ∧
      Int.ofNat sims.length = resultEx.ResultCount ∧
      ∀ (j : Nat) (sim : Similarity), sims[j]? = some sim →
        ([7] : List Int)[j]? = some sim.ID ∧
        (["T"] : List String)[j]? = some sim.sect.Title ∧
        (["H"] : List String)[j]? = some sim.sect.Heading ∧
        (["C"] : List String)[j]? = some sim.sect.Content ∧
        (resultEx.Scores[j]?).map Float32.toF64 = some sim.Score ∧
        sim.sect.Embedding = [] :=
  C2_query_reshapes searchOkWorld mEx [] 3 resultEx [] [7] ["T"] ["H"] ["C"]
    rfl rfl rfl (by decide) (by decide) (by decide) (by decide) (by decide)
    (by decide)

/-- C9 counterexample: the claim's safety characterization fails in two
places.  With all four columns present, correctly typed and holding
`ResultCount` values but an empty `Scores` slice, the function panics
(out-of-range slice index) instead of returning `ResultCount` similarities;
and with the title column absent but the id column present and empty, the
function returns the id lookup's range error, so no nil-column dereference
is reached. -/
theorem C9_counterexample :
    constructSimilaritiesFromResult resultScoresShort = .panic ∧
    constructSimilaritiesFromResult resultIdEmpty =
      .err "index out of range" :=
  ⟨rfl, rfl⟩

/-- C9 (amended): when the result's fields include an int64 id column and
varchar title, heading and content columns, each holding at least
`ResultCount` values, and the `Scores` slice also holds at least
`ResultCount` values, every per-row lookup succeeds and exactly
`ResultCount` similarities are returned with no error; and when one of the
four columns is absent or wrongly typed, `ResultCount` is positive and each
column that is present holds at least `ResultCount` values, the per-row
lookup dereferences a nil column pointer (a panic) instead of returning an
error. -/
theorem C9_construct_safety (r : SearchResult) (ivs : List Int)
    (tvs hvs cvs : List String) :
    (scanFields r.Fields = (some ivs, some tvs, some hvs, some cvs) →
      r.ResultCount.toNat ≤ ivs.length →
      r.ResultCount.toNat ≤ tvs.length →
      r.ResultCount.toNat ≤ hvs.length →
      r.ResultCount.toNat ≤ cvs.length →
      r.ResultCount.toNat ≤ r.Scores.length →
      ∃ sims, constructSimilaritiesFromResult r = .ok sims ∧
        sims.length = r.ResultCount.toNat) ∧
    (∀ (ic : Option (List Int)) (tc hc cc : Option (List String)),
      scanFields r.Fields = (ic, tc, hc, cc) →
      (ic = none ∨ tc = none ∨ hc = none ∨ cc = none) →
      0 < r.ResultCount →
      (∀ vs, ic = some vs → r.ResultCount.toNat ≤ vs.length) →
      (∀ vs, tc = some vs → r.ResultCount.toNat ≤ vs.length) →
      (∀ vs, hc = some vs → r.ResultCount.toNat ≤ vs.length) →
      (∀ vs, cc = some vs → r.ResultCount.toNat ≤ vs.length) →
      constructSimilaritiesFromResult r = .panic) := by
  constructor
  · intro hscan hl1 hl2 hl3 hl4 hl5
    obtain ⟨sims, hs, hlen, hget⟩ :=
      constructLoop_ok ivs tvs hvs cvs r.Scores r.ResultCount.toNat 0
        (by omega) (by omega) (by omega) (by omega) (by omega)
    refine ⟨sims, ?_, hlen⟩
    unfold constructSimilaritiesFromResult
    rw [hscan]
    exact hs
  · intro ic tc hc cc hscan hnil hpos hbi hbt hbh hbc
    unfold constructSimilaritiesFromResult
    rw [hscan]
    obtain ⟨n, hn⟩ : ∃ n, r.ResultCount.toNat = n + 1 :=
      ⟨r.ResultCount.toNat - 1, by omega⟩
    rw [hn]
    rcases ic with _ | ivs0
    · simp [constructLoop, valueByIdxInt]
    · have hbi0 := hbi ivs0 rfl
      have h0i : ivs0[0]? = some (ivs0.get ⟨0, by omega⟩) :=
        List.getElem?_eq_getElem (by omega)
      rcases tc with _ | tvs0
      · simp [constructLoop, valueByIdxInt, valueByIdxStr, h0i]
      · have hbt0 := hbt tvs0 rfl
        have h0t : tvs0[0]? = some (tvs0.get ⟨0, by omega⟩) :=
          List.getElem?_eq_getElem (by omega)
        rcases hc with _ | hvs0
        · simp [constructLoop, valueByIdxInt, valueByIdxStr, h0i, h0t]
        · have hbh0 := hbh hvs0 rfl
          have h0h : hvs0[0]? = some (hvs0.get ⟨0, by omega⟩) :=
            List.getElem?_eq_getElem (by omega)
          rcases cc with _ | cvs0
          · simp [constructLoop, valueByIdxInt, valueByIdxStr, h0i, h0t,
              h0h]
          · rcases hnil with h | h | h | h <;> exact absurd h (by simp)

/-- Witness for the amended C9: part one at the well-formed result
`resultEx`, part two at `resultTitleMissing`, whose title column is
absent. -/
theorem C9_construct_safety_witness :
    (∃ sims, constructSimilaritiesFromResult resultEx = .ok sims ∧
      sims.length = resultEx.ResultCount.toNat) ∧
    constructSimilaritiesFromResult resultTitleMissing = .panic :=
  ⟨(C9_construct_safety resultEx [7] ["T"] ["H"] ["C"]).1 rfl (by decide)
    (by decide) (by decide) (by decide) (by decide),
   (C9_construct_safety resultTitleMissing [] [] [] []).2 (some [7]) none
    (some ["H"]) (some ["C"]) rfl (Or.inr (Or.inl rfl)) (by decide)
    (fun vs h => by cases h; decide) (fun vs h => by cases h)
    (fun vs h => by cases h; decide) (fun vs h => by cases h; decide)⟩
